import Mathlib

/-!
Verification of the Windows restic/B2 backup orchestrator (`backup.py`).

The script is a sequential orchestrator: it runs a fixed catalog of backup and
maintenance tasks, each wrapped so that a failure is recorded in a shared error
list instead of aborting the run, and finally sends one summary e-mail.

Shallow embedding conventions:
* A subprocess invocation is abstracted by a `ProcResult` (exit code and the two
  captured output streams); `sh` is a pure function of the command, its `check`
  flag and that result.  The `env`/`stdin_str` parameters of the Python `sh` and
  its `print` logging do not influence the returned value or the raised error,
  so they are not part of the embedded state.
* Python exceptions are the closed type `PyError`: `ShellError` (the only
  exception class the script defines) or any other exception, carried as its
  `str()` text.
* A task is a function from the shared error list (the only mutable state the
  tasks touch) to the updated list together with the exception it raises, if
  any (`none` = the task returned normally).
* `random.shuffle` is embedded as the Fisher-Yates loop of CPython's
  `random.shuffle`, parameterised by the stream of random draws
  (`rand i % (i+1)` models `randbelow(i+1)`, which always lies in `[0, i]`).
-/

/-- The single-quote character, by code point (39). -/
def squote : Char := Char.ofNat 39

/-- The double-quote character, by code point (34). -/
def dquote : Char := Char.ofNat 34

/-- Python `str.strip()` whitespace: space, tab, newline, carriage return,
vertical tab, form feed (ASCII range; exotic Unicode whitespace, which never
occurs in this script's messages, is not modelled). -/
def isPyWs (c : Char) : Bool :=
  c == ' ' || c == '\t' || c == '\n' || c == '\r' ||
  c == Char.ofNat 11 || c == Char.ofNat 12

/-- Python `str.strip()` on a character list: drop whitespace from both ends. -/
def pyStripList (l : List Char) : List Char :=
  ((l.dropWhile isPyWs).reverse.dropWhile isPyWs).reverse

/-- Python `str.strip()`. -/
def pyStrip (s : String) : String :=
  ⟨pyStripList s.data⟩

/-- CPython `repr` of a string, for the strings this script passes to
subprocesses (no control characters or backslashes, so only the quote-choice
rule matters): single quotes, unless the string contains a single quote and no
double quote, in which case double quotes. -/
def pyStrRepr (s : String) : String :=
  if s.contains squote && !(s.contains dquote) then
    String.singleton dquote ++ s ++ String.singleton dquote
  else
    String.singleton squote ++ s ++ String.singleton squote

/-- CPython `repr`/`str` of a list of strings, as produced by
`f"{proc.args}"` in `sh`. -/
def pyListRepr (l : List String) : String :=
  "[" ++ String.intercalate ", " (l.map pyStrRepr) ++ "]"

/-- Outcome of one subprocess: exit code and the two captured output streams
(`text=True`, so both are text). -/
structure ProcResult where
  returncode : Int
  stdout : String
  stderr : String
deriving DecidableEq

/-- The exceptions that can arise in the script, as a closed type:
`shellError msg` is the script's own `ShellError` class with its `msg`
attribute; `otherExc s` is any other exception, carried as its `str()` text. -/
inductive PyError where
  | shellError (msg : String)
  | otherExc (s : String)
deriving DecidableEq

/-- Python `str(e)` of an exception object.  `ShellError.__init__` sets
`self.msg` without calling `super().__init__`, so its `args` tuple is empty and
`str` of it is the empty string; for any other exception the carried text is by
definition its `str()`. -/
def pyStrOfExc : PyError → String
  | .shellError _ => ""
  | .otherExc s => s

/-- The message of the `ShellError` raised by `sh` on a checked non-zero exit:
the f-string at `backup.py` lines 95-100, built from the command, the return
code and the (already stripped) output streams. -/
def shellErrorMsg (cmd : List String) (returncode : Int)
    (stdout stderr : String) : String :=
  "[script] Failed to run command: " ++ pyListRepr cmd ++
  "\n[script] Return code: " ++ toString returncode ++
  "\n\n[script] Stdout:\n" ++ stdout ++
  "\n[script] Stderr:\n" ++ stderr

/-- `sh(cmd, check)` (`backup.py` lines 80-105), as a function of the
subprocess outcome `res`: strip both streams; if `check` holds and the exit
code is non-zero, raise `ShellError` with the formatted message; otherwise
return the stripped stdout. -/
def sh (cmd : List String) (check : Bool) (res : ProcResult) :
    Except PyError String :=
  let stdout := pyStrip res.stdout
  let stderr := pyStrip res.stderr
  if check && res.returncode != 0 then
    .error (.shellError (shellErrorMsg cmd res.returncode stdout stderr))
  else
    .ok stdout

/-- An entry of the shared error list.  `try_task` appends either the `msg`
string of a `ShellError` (`strEntry`) or the exception object itself
(`excEntry`, carried as its `str()` text, which is what the notification body
later extracts with `str(e)`). -/
inductive ErrEntry where
  | strEntry (s : String)
  | excEntry (s : String)
deriving DecidableEq

/-- Python `str(e)` for an element of the error list: a string is its own
`str`; an exception object yields its `str()` text. -/
def entryStr : ErrEntry → String
  | .strEntry s => s
  | .excEntry s => s

/-- A task's effect: from the current shared error list to the updated list
and the exception the task raises, if any (`none` = normal return). -/
def TaskFn : Type := List ErrEntry → List ErrEntry × Option PyError

/-- Lift a task that never touches the error list (every catalog task except
`backup_c_drive`) to a `TaskFn`. -/
def liftPure (c : Except PyError Unit) : TaskFn := fun errs =>
  (errs, match c with | .ok _ => none | .error e => some e)

/-- `try_task(task_func, error_list)` (`backup.py` lines 121-127): run the
task; on `ShellError e` append `e.msg`; on any other exception append the
exception object itself; never re-raise.  The second component is the
exception `try_task` itself lets escape. -/
def try_task (task_func : TaskFn) (error_list : List ErrEntry) :
    List ErrEntry × Option PyError :=
  match task_func error_list with
  | (errs, none) => (errs, none)
  | (errs, some (.shellError m)) => (errs ++ [.strEntry m], none)
  | (errs, some (.otherExc s)) => (errs ++ [.excEntry s], none)

/-- `BACKUP_DIRS` (`backup.py` lines 16-24): subdirectories of the home
directory to back up. -/
def BACKUP_DIRS : List String :=
  ["Documents", "Pictures", "Music", "Videos", "build", "AppData/Roaming",
   "VirtualBox VMs"]

/-- `RESTIC_ENV_VARS` (`backup.py` lines 26-36), an insertion-ordered dict of
restic environment variables (the secret values are redacted in the source
with asterisks, kept verbatim here). -/
def RESTIC_ENV_VARS : List (String × String) :=
  [("RESTIC_REPOSITORY", "s3:s3.us-east-005.backblazeb2.com/MYBUCKETNAME"),
   ("AWS_ACCESS_KEY_ID", "*************"),
   ("AWS_SECRET_ACCESS_KEY", "*********************"),
   ("RESTIC_PASSWORD", "*************************")]

/-- `EXCLUDE_PATH_PATTERNS` (`backup.py` lines 43-49). -/
def EXCLUDE_PATH_PATTERNS : List String :=
  ["node_modules/**", ".cache/**", ".vscode/**", ".npm/**",
   ".vscode-server/**"]

/-- `gen_exclude_flags` (`backup.py` lines 56-61): an `--exclude` flag before
every pattern. -/
def gen_exclude_flags (patterns : List String) : List String :=
  patterns.foldl (fun flags pattern => flags ++ ["--exclude", pattern]) []

/-- `RESTIC_DEFAULT_ARGS` (`backup.py` line 65). -/
def RESTIC_DEFAULT_ARGS : List String :=
  gen_exclude_flags EXCLUDE_PATH_PATTERNS

/-- `RCLONE_BASE` (`backup.py` lines 68-72); the rclone destination root
`RCLONE_DEST_PATH` is kept abstract as a string parameter where used. -/
def RCLONE_BASE : List String :=
  ["rclone", "sync", "--links"] ++ gen_exclude_flags EXCLUDE_PATH_PATTERNS

/-- Join a path and a child component.  `pathlib` renders paths with the
platform separator; the separator choice never matters to any proved property,
so the POSIX one is used. -/
def joinPath (base child : String) : String :=
  base ++ "/" ++ child

/-- One Fisher-Yates swap `x[i], x[j] = x[j], x[i]` of CPython's
`random.shuffle`; out-of-range indices (which the shuffle loop never produces)
leave the list unchanged. -/
def listSwap {α : Type} (l : List α) (i j : Nat) : List α :=
  match l[i]?, l[j]? with
  | some a, some b => (l.set i b).set j a
  | _, _ => l

/-- The loop of CPython's `random.shuffle`: `for i in reversed(range(1, n)):
j = randbelow(i + 1); swap x[i] x[j]`.  `shuffleGo rand i x` performs the
iterations for indices `i, i-1, ..., 1`. -/
def shuffleGo {α : Type} (rand : Nat → Nat) : Nat → List α → List α
  | 0, x => x
  | i + 1, x => shuffleGo rand i (listSwap x (i + 1) (rand (i + 1) % (i + 2)))

/-- `random.shuffle(x)`, parameterised by the random draw stream `rand`
(`rand i % (i+1)` models `randbelow(i+1)`). -/
def pyShuffle {α : Type} (rand : Nat → Nat) (l : List α) : List α :=
  shuffleGo rand (l.length - 1) l

/-- `backup_windows_dir(dir)` (`backup.py` lines 130-141): one restic snapshot
of one directory, given that subprocess's outcome. -/
def backup_windows_dir (dir : String) (res : ProcResult) :
    Except PyError Unit := do
  let _ ← sh (["restic"] ++ RESTIC_DEFAULT_ARGS ++
      ["backup", dir, "--use-fs-snapshot", "--tag", "Windows"]) true res
  pure ()

/-- `backup_aws()` (`backup.py` lines 144-165): two rclone mirrors, each
failure-checked; the second runs only if the first returns. -/
def backup_aws (rcloneDest : String) (ghidraRes twitchbotRes : ProcResult) :
    Except PyError Unit := do
  let _ ← sh (RCLONE_BASE ++
      ["ghidra:/home/ghidra", joinPath (joinPath rcloneDest "aws") "ghidra",
       "--exclude", ".dotfiles/**"]) true ghidraRes
  let _ ← sh (RCLONE_BASE ++
      ["twitchbot:/home/twitchbot",
       joinPath (joinPath rcloneDest "aws") "twitchbot",
       "--exclude", ".dotfiles/**"]) true twitchbotRes
  pure ()

/-- `commit_notes()` (`backup.py` lines 168-173): stage with `check=True`,
then commit with `check=False`; `date` is `time.ctime()`. -/
def commit_notes (date : String) (stageRes commitRes : ProcResult) :
    Except PyError Unit := do
  let _ ← sh ["git", "add", "."] true stageRes
  let _ ← sh ["git", "commit", "-m", "Update " ++ date] false commitRes
  pure ()

/-- `choco_upgrade()` (`backup.py` lines 176-178). -/
def choco_upgrade (res : ProcResult) : Except PyError Unit := do
  let _ ← sh ["choco", "upgrade", "all"] true res
  pure ()

/-- `wsl_upgrade()` (`backup.py` lines 181-184). -/
def wsl_upgrade (updateRes upgradeRes : ProcResult) : Except PyError Unit := do
  let _ ← sh ["wsl.exe", "sudo", "apt", "update"] true updateRes
  let _ ← sh ["wsl.exe", "sudo", "apt", "upgrade", "-y"] true upgradeRes
  pure ()

/-- The loop body sequence of `backup_c_drive` (`backup.py` lines 190-192):
process the given directory list in order, wrapping each directory's backup
individually in `try_task`.  Returns the updated error list, the list of
directories whose backup was attempted, and the exception escaping the loop,
if any (an exception aborts the remaining iterations, as in Python). -/
def backup_c_drive_loop (home : String) (res : String → ProcResult) :
    List String → List ErrEntry → List ErrEntry × List String × Option PyError
  | [], errs => (errs, [], none)
  | d :: ds, errs =>
    match try_task (liftPure (backup_windows_dir (joinPath home d) (res d)))
        errs with
    | (errs2, none) =>
      let r := backup_c_drive_loop home res ds errs2
      (r.1, d :: r.2.1, r.2.2)
    | (errs2, some ex) => (errs2, [d], some ex)

/-- `backup_c_drive(errors)` (`backup.py` lines 187-193): shuffle a copy of
`BACKUP_DIRS`, then back up each directory under `try_task`.  `res` gives each
directory's subprocess outcome. -/
def backup_c_drive (home : String) (rand : Nat → Nat)
    (res : String → ProcResult) (errors : List ErrEntry) :
    List ErrEntry × List String × Option PyError :=
  backup_c_drive_loop home res (pyShuffle rand BACKUP_DIRS) errors

/-- The `WSLENV` value `backup_wsl` constructs (`backup.py` lines 199-207):
start from the pre-existing value (empty string if the variable is unset) and
append `:NAME` for each key of `RESTIC_ENV_VARS`, in dict order. -/
def backup_wsl_wslenv (prev : Option String) : String :=
  let wslenv := match prev with
    | some v => v
    | none => ""
  (RESTIC_ENV_VARS.map Prod.fst).foldl
    (fun acc var_name => acc ++ ":" ++ var_name) wslenv

/-- `backup_wsl()` (`backup.py` lines 196-224): build the `WSLENV` allowlist
and environment, then run restic inside WSL (one failure-checked command). -/
def backup_wsl (prevWslenv : Option String) (res : ProcResult) :
    Except PyError Unit := do
  let _wslenv := backup_wsl_wslenv prevWslenv
  let _ ← sh (["wsl.exe", "--shell-type", "none",
      "/home/alex/.local/bin/restic", "backup", "/home/alex", "--tag",
      "WSL"] ++ RESTIC_DEFAULT_ARGS) true res
  pure ()

/-- `check_restic_integrity()` (`backup.py` lines 227-232). -/
def check_restic_integrity (res : ProcResult) : Except PyError Unit := do
  let _ ← sh ["restic", "check"] true res
  pure ()

/-- The external inputs of one run: `time.ctime()`, the home and rclone
destination paths, the pre-existing `WSLENV` value, every subprocess outcome,
the random stream of the shuffle, whether each successive `notify` attempt
raises, and the `str()` text of the exception a failing `notify` raises. -/
structure World where
  date : String
  home : String
  rcloneDest : String
  prevWslenv : Option String
  stageRes : ProcResult
  commitRes : ProcResult
  ghidraRes : ProcResult
  twitchbotRes : ProcResult
  chocoRes : ProcResult
  aptUpdateRes : ProcResult
  aptUpgradeRes : ProcResult
  rand : Nat → Nat
  cDriveRes : String → ProcResult
  wslRes : ProcResult
  checkRes : ProcResult
  notifyFails : Nat → Bool
  notifyExcStr : String

/-- The seven catalog entries of `do_backup_windows` (`backup.py` lines
238-244), in order, as `TaskFn`s.  The fifth captures the shared error list
(`lambda: backup_c_drive(errors)`). -/
def task_list (w : World) : List TaskFn :=
  [liftPure (commit_notes w.date w.stageRes w.commitRes),
   liftPure (backup_aws w.rcloneDest w.ghidraRes w.twitchbotRes),
   liftPure (choco_upgrade w.chocoRes),
   liftPure (wsl_upgrade w.aptUpdateRes w.aptUpgradeRes),
   fun errs =>
     let r := backup_c_drive w.home w.rand w.cDriveRes errs
     (r.1, r.2.2),
   liftPure (backup_wsl w.prevWslenv w.wslRes),
   liftPure (check_restic_integrity w.checkRes)]

/-- Run a sequence of tasks, each under `try_task`, threading the shared error
list; an exception escaping a `try_task` call aborts the remaining tasks and
propagates (second component). -/
def run_task_seq : List TaskFn → List ErrEntry → List ErrEntry × Option PyError
  | [], errs => (errs, none)
  | t :: ts, errs =>
    match try_task t errs with
    | (errs2, none) => run_task_seq ts errs2
    | (errs2, some ex) => (errs2, some ex)

/-- The task-running half of `do_backup_windows` (`backup.py` lines 236-244):
`errors = []`, then the seven `try_task` calls. -/
def run_tasks (w : World) : List ErrEntry × Option PyError :=
  run_task_seq (task_list w) []

/-- The fixed success-notification body (`backup.py` line 247). -/
def SUCCESS_BODY : String :=
  "Hope you" ++ String.singleton squote ++ "re having a nice day :)"

/-- The notification decision of `do_backup_windows` (`backup.py` lines
246-251): fixed success subject/body on an empty error list, otherwise the
failure subject with count and pluralisation and the stripped concatenation of
the entries' `str()` texts. -/
def decide_notification (errors : List ErrEntry) : String × String :=
  if errors.length == 0 then
    ("Backup succeeded", SUCCESS_BODY)
  else
    ("Backup failed! " ++ toString errors.length ++ " error" ++
       (if errors.length == 1 then "" else "s"),
     pyStrip (String.join (errors.map entryStr)))

/-- The observable notification behaviour of one process run: the
subject/body pairs handed to `notify` in order, those actually delivered, and
whether an exception escaped the whole process (both attempts failed). -/
structure NotifyLog where
  attempts : List (String × String)
  delivered : List (String × String)
  crashed : Bool
deriving DecidableEq

/-- The whole program (`backup.py` lines 235-259): run the seven tasks, decide
the notification, send it; if that `notify` raises, the `__main__` handler
sends `("Backup failed: 1 error", e)` and lets a second failure escape.  The
`some` branch (an exception escaping `do_backup_windows` before its `notify`)
is included for faithfulness of the handler, though it is proved unreachable. -/
def main_entry (w : World) : NotifyLog :=
  match run_tasks w with
  | (errs, none) =>
    let n := decide_notification errs
    if w.notifyFails 0 then
      let n2 := ("Backup failed: 1 error", w.notifyExcStr)
      if w.notifyFails 1 then
        { attempts := [n, n2], delivered := [], crashed := true }
      else
        { attempts := [n, n2], delivered := [n2], crashed := false }
  else
      { attempts := [n], delivered := [n], crashed := false }
  | (_, some ex) =>
    let n2 := ("Backup failed: 1 error", pyStrOfExc ex)
    if w.notifyFails 0 then
      { attempts := [n2], delivered := [], crashed := true }
    else
      { attempts := [n2], delivered := [n2], crashed := false }

/-- A subprocess outcome that succeeded with empty output. -/
def okProc : ProcResult := ⟨0, "", ""⟩

/-- A subprocess outcome that failed with exit code 1. -/
def failProc : ProcResult := ⟨1, " out ", "err"⟩

/-- A run in which every subprocess succeeds and `notify` never raises. -/
def worldOk : World :=
  { date := "Mon Jan  1 00:00:00 2024"
    home := "C:/Users/alex"
    rcloneDest := "C:/Users/alex/backup"
    prevWslenv := none
    stageRes := okProc
    commitRes := okProc
    ghidraRes := okProc
    twitchbotRes := okProc
    chocoRes := okProc
    aptUpdateRes := okProc
    aptUpgradeRes := okProc
    rand := fun _ => 0
    cDriveRes := fun _ => okProc
    wslRes := okProc
    checkRes := okProc
    notifyFails := fun _ => false
    notifyExcStr := "smtp error" }

/-- A run in which exactly one task (the chocolatey upgrade) fails. -/
def worldFail : World :=
  { worldOk with chocoRes := failProc }

/-- A run in which every `notify` attempt raises. -/
def worldNotifyFail : World :=
  { worldOk with notifyFails := fun _ => true }

/-- `try_task` lets no exception escape, whatever the task does. -/
theorem try_task_snd_eq_none (t : TaskFn) (errs : List ErrEntry) :
    (try_task t errs).2 = none := by
  unfold try_task
  rcases ht : t errs with ⟨e, exc⟩
  rcases exc with _ | ex
  · rfl
  · cases ex <;> rfl

/-- A task that can only append to the error list. -/
def GrowOnly (t : TaskFn) : Prop :=
  ∀ e, ∃ d, (t e).1 = e ++ d

/-- `try_task` of a grow-only task only appends to the error list. -/
theorem try_task_grow {t : TaskFn} (hg : GrowOnly t) (errs : List ErrEntry) :
    ∃ d, (try_task t errs).1 = errs ++ d := by
  obtain ⟨d, hd⟩ := hg errs
  unfold try_task
  rcases ht : t errs with ⟨e, exc⟩
  rw [ht] at hd
  simp only at hd
  rcases exc with _ | ex
  · exact ⟨d, hd⟩
  · cases ex with
    | shellError m =>
      exact ⟨d ++ [.strEntry m], by simp [hd]⟩
    | otherExc s =>
      exact ⟨d ++ [.excEntry s], by simp [hd]⟩

/-- Tasks lifted from the mere outcome of a computation are grow-only. -/
theorem liftPure_growOnly (c : Except PyError Unit) : GrowOnly (liftPure c) :=
  fun e => ⟨[], by simp [liftPure]⟩

/-- The `backup_c_drive` loop only appends to the error list. -/
theorem backup_c_drive_loop_grow (home : String) (res : String → ProcResult)
    (ds : List String) (errs : List ErrEntry) :
    ∃ d, (backup_c_drive_loop home res ds errs).1 = errs ++ d := by
  induction ds generalizing errs with
  | nil => exact ⟨[], by simp [backup_c_drive_loop]⟩
  | cons d ds ih =>
    unfold backup_c_drive_loop
    rcases ht : try_task
        (liftPure (backup_windows_dir (joinPath home d) (res d))) errs with
      ⟨errs2, exc⟩
    obtain ⟨d1, hd1⟩ :=
      try_task_grow (liftPure_growOnly
        (backup_windows_dir (joinPath home d) (res d))) errs
    rw [ht] at hd1
    simp only at hd1
    rcases exc with _ | ex
    · obtain ⟨d2, hd2⟩ := ih errs2
      refine ⟨d1 ++ d2, ?_⟩
      show (backup_c_drive_loop home res ds errs2).1 = errs ++ (d1 ++ d2)
      rw [hd2, hd1, List.append_assoc]
    · exact ⟨d1, by simpa using hd1⟩

/-- No exception escapes a task sequence run under `try_task`. -/
theorem run_task_seq_snd_eq_none (ts : List TaskFn) (errs : List ErrEntry) :
    (run_task_seq ts errs).2 = none := by
  induction ts generalizing errs with
  | nil => rfl
  | cons t ts ih =>
    unfold run_task_seq
    rcases ht : try_task t errs with ⟨errs2, exc⟩
    have hn : exc = none := by
      have h2 := try_task_snd_eq_none t errs
      rw [ht] at h2
      exact h2
    subst hn
    exact ih errs2

/-- No exception escapes the task-running half of `do_backup_windows`. -/
theorem run_tasks_snd_eq_none (w : World) : (run_tasks w).2 = none :=
  run_task_seq_snd_eq_none (task_list w) []

/-- A sequence of grow-only tasks only appends to the error list. -/
theorem run_task_seq_grow (ts : List TaskFn) (hg : ∀ t ∈ ts, GrowOnly t)
    (errs : List ErrEntry) :
    ∃ d, (run_task_seq ts errs).1 = errs ++ d := by
  induction ts generalizing errs with
  | nil => exact ⟨[], by simp [run_task_seq]⟩
  | cons t ts ih =>
    obtain ⟨d1, hd1⟩ := try_task_grow (hg t (by simp)) errs
    unfold run_task_seq
    rcases ht : try_task t errs with ⟨errs2, exc⟩
    rw [ht] at hd1
    simp only at hd1
    rcases exc with _ | ex
    · obtain ⟨d2, hd2⟩ := ih (fun u hu => hg u (by simp [hu])) errs2
      refine ⟨d1 ++ d2, ?_⟩
      show (run_task_seq ts errs2).1 = errs ++ (d1 ++ d2)
      rw [hd2, hd1, List.append_assoc]
    · exact ⟨d1, hd1⟩

/-- The error list after the whole sequence extends the error list after any
first `k` tasks of the sequence. -/
theorem run_task_seq_take_grow (ts : List TaskFn) (hg : ∀ t ∈ ts, GrowOnly t)
    (errs : List ErrEntry) (k : Nat) :
    ∃ d, (run_task_seq ts errs).1 =
      (run_task_seq (ts.take k) errs).1 ++ d := by
  induction ts generalizing errs k with
  | nil => exact ⟨[], by simp [run_task_seq]⟩
  | cons t ts ih =>
    cases k with
    | zero =>
      simpa using run_task_seq_grow (t :: ts) hg errs
    | succ k =>
      simp only [List.take_succ_cons]
      unfold run_task_seq
      rcases ht : try_task t errs with ⟨errs2, exc⟩
      have hn : exc = none := by
        have h2 := try_task_snd_eq_none t errs
        rw [ht] at h2
        exact h2
      subst hn
      exact ih (fun u hu => hg u (by simp [hu])) errs2 k

/-- Every task of the catalog is grow-only. -/
theorem task_list_growOnly (w : World) : ∀ t ∈ task_list w, GrowOnly t := by
  intro t ht
  simp only [task_list, List.mem_cons, List.not_mem_nil, or_false] at ht
  rcases ht with h | h | h | h | h | h | h <;> subst h
  · exact liftPure_growOnly _
  · exact liftPure_growOnly _
  · exact liftPure_growOnly _
  · exact liftPure_growOnly _
  · intro e
    obtain ⟨d, hd⟩ := backup_c_drive_loop_grow w.home w.cDriveRes
      (pyShuffle w.rand BACKUP_DIRS) e
    exact ⟨d, hd⟩
  · exact liftPure_growOnly _
  · exact liftPure_growOnly _

/-- Setting an index to the value already there leaves the list unchanged. -/
theorem set_same {α : Type} : ∀ (l : List α) (i : Nat) (a : α),
    l[i]? = some a → l.set i a = l := by
  intro l
  induction l with
  | nil =>
    intro i a h
    simp at h
  | cons c t ih =>
    intro i a h
    cases i with
    | zero =>
      simp at h
      subst h
      rfl
    | succ k =>
      simp only [List.getElem?_cons_succ] at h
      simp [List.set, ih k a h]

/-- Replacing index `m` of `t` by `a` while moving the old inhabitant `b` to
the front is a permutation of pushing `a` on the front. -/
theorem cons_set_perm {α : Type} (a : α) :
    ∀ (t : List α) (m : Nat) (b : α), t[m]? = some b →
      (b :: t.set m a).Perm (a :: t) := by
  intro t
  induction t with
  | nil =>
    intro m b h
    simp at h
  | cons c t ih =>
    intro m b h
    cases m with
    | zero =>
      have hb : c = b := by simpa using h
      subst hb
      exact List.Perm.swap a c t
    | succ k =>
      simp only [List.getElem?_cons_succ] at h
      have h1 : (b :: c :: t.set k a).Perm (c :: b :: t.set k a) :=
        List.Perm.swap c b _
      have h2 : (c :: b :: t.set k a).Perm (c :: a :: t) :=
        List.Perm.cons c (ih k b h)
      have h3 : (c :: a :: t).Perm (a :: c :: t) := List.Perm.swap a c t
      exact (h1.trans h2).trans h3

/-- One Fisher-Yates swap is a permutation, for any indices. -/
theorem listSwap_perm {α : Type} : ∀ (l : List α) (i j : Nat),
    (listSwap l i j).Perm l := by
  intro l
  induction l with
  | nil =>
    intro i j
    simp [listSwap]
  | cons c t ih =>
    intro i j
    unfold listSwap
    rcases hi : (c :: t)[i]? with _ | a
    · exact List.Perm.refl _
    rcases hj : (c :: t)[j]? with _ | b
    · exact List.Perm.refl _
    cases i with
    | zero =>
      have ha : c = a := by simpa using hi
      subst ha
      cases j with
      | zero =>
        have hb : c = b := by simpa using hj
        subst hb
        exact List.Perm.refl _
      | succ k =>
        simp only [List.getElem?_cons_succ] at hj
        show (b :: t.set k c).Perm (c :: t)
        exact cons_set_perm c t k b hj
    | succ m =>
      cases j with
      | zero =>
        have hb : c = b := by simpa using hj
        subst hb
        simp only [List.getElem?_cons_succ] at hi
        show (a :: t.set m c).Perm (c :: t)
        exact cons_set_perm c t m a hi
      | succ k =>
        simp only [List.getElem?_cons_succ] at hi hj
        have hswap : listSwap t m k = (t.set m b).set k a := by
          unfold listSwap
          rw [hi, hj]
        have hp := ih m k
        rw [hswap] at hp
        show (c :: (t.set m b).set k a).Perm (c :: t)
        exact List.Perm.cons c hp

/-- Every state of the `random.shuffle` loop is a permutation of the input. -/
theorem shuffleGo_perm {α : Type} (rand : Nat → Nat) :
    ∀ (i : Nat) (l : List α), (shuffleGo rand i l).Perm l := by
  intro i
  induction i with
  | zero =>
    intro l
    exact List.Perm.refl l
  | succ i ih =>
    intro l
    exact (ih _).trans (listSwap_perm l (i + 1) (rand (i + 1) % (i + 2)))

/-- `random.shuffle` produces a permutation of its input. -/
theorem pyShuffle_perm {α : Type} (rand : Nat → Nat) (l : List α) :
    (pyShuffle rand l).Perm l :=
  shuffleGo_perm rand (l.length - 1) l

/-- The `backup_c_drive` loop attempts every directory of its list, in order,
and lets no exception escape, whatever the subprocess outcomes. -/
theorem backup_c_drive_loop_all (home : String) (res : String → ProcResult) :
    ∀ (ds : List String) (errs : List ErrEntry),
      (backup_c_drive_loop home res ds errs).2.1 = ds ∧
      (backup_c_drive_loop home res ds errs).2.2 = none := by
  intro ds
  induction ds with
  | nil =>
    intro errs
    exact ⟨rfl, rfl⟩
  | cons d ds ih =>
    intro errs
    unfold backup_c_drive_loop
    rcases ht : try_task
        (liftPure (backup_windows_dir (joinPath home d) (res d))) errs with
      ⟨errs2, exc⟩
    have hn : exc = none := by
      have h2 := try_task_snd_eq_none
        (liftPure (backup_windows_dir (joinPath home d) (res d))) errs
      rw [ht] at h2
      exact h2
    subst hn
    obtain ⟨h1, h2⟩ := ih errs2
    exact ⟨by simp [h1], by simp [h2]⟩

/-- C3: `try_task` never re-raises, for every task function and error list: a
`ShellError` raised by the task appends its formatted message to the list, any
other exception is appended to the list as an entry, a normal return leaves
the list alone, and in all cases `try_task` itself returns normally. -/
theorem try_task_never_reraises (t : TaskFn) (errs errs2 : List ErrEntry) :
    (try_task t errs).2 = none ∧
    (∀ m, t errs = (errs2, some (.shellError m)) →
      try_task t errs = (errs2 ++ [.strEntry m], none)) ∧
    (∀ s, t errs = (errs2, some (.otherExc s)) →
      try_task t errs = (errs2 ++ [.excEntry s], none)) ∧
    (t errs = (errs2, none) → try_task t errs = (errs2, none)) := by
  refine ⟨try_task_snd_eq_none t errs, ?_, ?_, ?_⟩
  · intro m hm
    unfold try_task
    rw [hm]
  · intro s hs
    unfold try_task
    rw [hs]
  · intro hn
    unfold try_task
    rw [hn]

/-- Witness for C3 at two concrete raising tasks and the empty list. -/
theorem try_task_never_reraises_witness :
    try_task (fun e => (e, some (.shellError "boom"))) [] =
      ([.strEntry "boom"], none) ∧
    try_task (fun e => (e, some (.otherExc "TypeError: bad"))) [] =
      ([.excEntry "TypeError: bad"], none) := by
  obtain ⟨-, h2, -, -⟩ :=
    try_task_never_reraises (fun e => (e, some (.shellError "boom"))) [] []
  obtain ⟨-, -, h3, -⟩ :=
    try_task_never_reraises (fun e => (e, some (.otherExc "TypeError: bad")))
      [] []
  exact ⟨by simpa using h2 "boom" rfl, by simpa using h3 "TypeError: bad" rfl⟩

/-- C4: on exit code zero `sh` returns the captured stdout trimmed of
surrounding whitespace; on a checked non-zero exit it raises a `ShellError`
whose message carries the command, the exit code, and both captured output
streams. -/
theorem sh_contract (cmd : List String) (check : Bool) (res : ProcResult) :
    (res.returncode = 0 → sh cmd check res = .ok (pyStrip res.stdout)) ∧
    (res.returncode ≠ 0 → check = true →
      sh cmd check res = .error (.shellError
        (shellErrorMsg cmd res.returncode (pyStrip res.stdout)
          (pyStrip res.stderr))) ∧
      (∃ u v, shellErrorMsg cmd res.returncode (pyStrip res.stdout)
          (pyStrip res.stderr) = u ++ pyListRepr cmd ++ v) ∧
      (∃ u v, shellErrorMsg cmd res.returncode (pyStrip res.stdout)
          (pyStrip res.stderr) = u ++ toString res.returncode ++ v) ∧
      (∃ u v, shellErrorMsg cmd res.returncode (pyStrip res.stdout)
          (pyStrip res.stderr) = u ++ pyStrip res.stdout ++ v) ∧
      (∃ u v, shellErrorMsg cmd res.returncode (pyStrip res.stdout)
          (pyStrip res.stderr) = u ++ pyStrip res.stderr ++ v)) := by
  constructor
  · intro h0
    simp [sh, h0]
  · intro hne hc
    subst hc
    refine ⟨by simp [sh, hne], ?_, ?_, ?_, ?_⟩
    · exact ⟨"[script] Failed to run command: ",
        "\n[script] Return code: " ++ toString res.returncode ++
          "\n\n[script] Stdout:\n" ++ pyStrip res.stdout ++
          "\n[script] Stderr:\n" ++ pyStrip res.stderr,
        by simp [shellErrorMsg, String.append_assoc]⟩
    · exact ⟨"[script] Failed to run command: " ++ pyListRepr cmd ++
          "\n[script] Return code: ",
        "\n\n[script] Stdout:\n" ++ pyStrip res.stdout ++
          "\n[script] Stderr:\n" ++ pyStrip res.stderr,
        by simp [shellErrorMsg, String.append_assoc]⟩
    · exact ⟨"[script] Failed to run command: " ++ pyListRepr cmd ++
          "\n[script] Return code: " ++ toString res.returncode ++
          "\n\n[script] Stdout:\n",
        "\n[script] Stderr:\n" ++ pyStrip res.stderr,
        by simp [shellErrorMsg, String.append_assoc]⟩
    · exact ⟨"[script] Failed to run command: " ++ pyListRepr cmd ++
          "\n[script] Return code: " ++ toString res.returncode ++
          "\n\n[script] Stdout:\n" ++ pyStrip res.stdout ++
          "\n[script] Stderr:\n", "",
        by simp [shellErrorMsg, String.append_assoc]⟩

/-- Witness for C4 at a succeeding and a failing concrete invocation. -/
theorem sh_contract_witness :
    sh ["git", "add", "."] true ⟨0, " hi \n", ""⟩ = .ok "hi" ∧
    sh ["git", "add", "."] true ⟨1, " out ", "err"⟩ = .error (.shellError
      (shellErrorMsg ["git", "add", "."] 1 "out" "err")) := by
  constructor
  · have h := (sh_contract ["git", "add", "."] true ⟨0, " hi \n", ""⟩).1 rfl
    rw [h]
    rfl
  · have h := ((sh_contract ["git", "add", "."] true ⟨1, " out ", "err"⟩).2
      (by decide) rfl).1
    rw [h]
    rfl

/-- C5: in the commit-notes task, a non-zero exit of the unchecked commit
step adds no error entry (whatever its exit code), while a non-zero exit of
the checked staging step adds exactly one. -/
theorem commit_notes_error_entries (date : String)
    (stageRes commitRes : ProcResult) (errs : List ErrEntry) :
    (stageRes.returncode = 0 →
      (try_task (liftPure (commit_notes date stageRes commitRes)) errs).1 =
        errs) ∧
    (stageRes.returncode ≠ 0 →
      (try_task (liftPure (commit_notes date stageRes commitRes)) errs).1 =
        errs ++ [.strEntry (shellErrorMsg ["git", "add", "."]
          stageRes.returncode (pyStrip stageRes.stdout)
          (pyStrip stageRes.stderr))]) := by
  constructor
  · intro h0
    simp [try_task, liftPure, commit_notes, sh, h0, Bind.bind, Except.bind, Pure.pure, Except.pure]
  · intro hne
    simp [try_task, liftPure, commit_notes, sh, hne, Bind.bind, Except.bind, Pure.pure, Except.pure]

/-- Witness for C5: a failing commit step alone adds nothing; a failing
staging step adds one entry. -/
theorem commit_notes_error_entries_witness :
    (try_task (liftPure (commit_notes "d" okProc failProc)) []).1 = [] ∧
    (try_task (liftPure (commit_notes "d" failProc okProc)) []).1 =
      [.strEntry (shellErrorMsg ["git", "add", "."] 1 "out" "err")] := by
  constructor
  · exact (commit_notes_error_entries "d" okProc failProc []).1 rfl
  · have h := (commit_notes_error_entries "d" failProc okProc []).2 (by decide)
    rw [h]
    rfl

/-- C7: the snapshot task attempts every directory of the shuffled list: the
attempted-directory list is the whole shuffled list whatever the per-directory
outcomes, no exception escapes the loop, and a change of outcomes (including
failures at any position) leaves the attempted list unchanged. -/
theorem c_drive_failures_do_not_block (home : String) (rand : Nat → Nat)
    (res res2 : String → ProcResult) (errs errs2 : List ErrEntry) :
    (backup_c_drive home rand res errs).2.1 = pyShuffle rand BACKUP_DIRS ∧
    (backup_c_drive home rand res errs).2.2 = none ∧
    (backup_c_drive home rand res errs).2.1 =
      (backup_c_drive home rand res2 errs2).2.1 := by
  obtain ⟨h1, h2⟩ :=
    backup_c_drive_loop_all home res (pyShuffle rand BACKUP_DIRS) errs
  obtain ⟨h3, -⟩ :=
    backup_c_drive_loop_all home res2 (pyShuffle rand BACKUP_DIRS) errs2
  simp only [backup_c_drive]
  exact ⟨h1, h2, by rw [h1, h3]⟩

/-- C6: shuffling the backup directory set does not change its membership:
the shuffled list is a permutation of the fixed directory list, and the
snapshot task therefore processes each configured directory exactly once. -/
theorem shuffle_preserves_membership (rand : Nat → Nat) (home : String)
    (res : String → ProcResult) (errs : List ErrEntry) :
    (pyShuffle rand BACKUP_DIRS).Perm BACKUP_DIRS ∧
    (∀ d ∈ BACKUP_DIRS,
      (backup_c_drive home rand res errs).2.1.count d = 1) := by
  have hperm := pyShuffle_perm rand BACKUP_DIRS
  refine ⟨hperm, ?_⟩
  intro d hd
  have hall :=
    (backup_c_drive_loop_all home res (pyShuffle rand BACKUP_DIRS) errs).1
  simp only [backup_c_drive]
  rw [hall, hperm.count_eq]
  have hcount : ∀ x ∈ BACKUP_DIRS, BACKUP_DIRS.count x = 1 := by decide
  exact hcount d hd

/-- Witness for C6 at a concrete random stream and a concrete directory. -/
theorem shuffle_preserves_membership_witness :
    (pyShuffle (fun _ => 0) BACKUP_DIRS).Perm BACKUP_DIRS ∧
    (backup_c_drive "h" (fun _ => 0) (fun _ => okProc) []).2.1.count
      "Documents" = 1 := by
  obtain ⟨h1, h2⟩ :=
    shuffle_preserves_membership (fun _ => 0) "h" (fun _ => okProc) []
  exact ⟨h1, h2 "Documents" (by decide)⟩

/-- C8: the error list only grows: `try_task` of any catalog task only
appends to it, and the final list handed to the notification decision extends
the list as it stood after any first `k` catalog tasks, so entries keep their
insertion order and nothing is cleared or truncated. -/
theorem error_list_append_only (w : World) (t : TaskFn)
    (errs : List ErrEntry) (ht : t ∈ task_list w) (k : Nat) :
    (∃ d, (try_task t errs).1 = errs ++ d) ∧
    (∃ d, (run_tasks w).1 =
      (run_task_seq ((task_list w).take k) []).1 ++ d) := by
  refine ⟨try_task_grow (task_list_growOnly w t ht) errs, ?_⟩
  exact run_task_seq_take_grow (task_list w) (task_list_growOnly w) [] k

/-- Witness for C8 at the first catalog task of a concrete failing run and
the split after three tasks. -/
theorem error_list_append_only_witness :
    (liftPure (commit_notes worldFail.date worldFail.stageRes
      worldFail.commitRes)) ∈ task_list worldFail ∧
    (∃ d, (try_task (liftPure (commit_notes worldFail.date worldFail.stageRes
      worldFail.commitRes)) [.excEntry "x"]).1 = [.excEntry "x"] ++ d) ∧
    (∃ d, (run_tasks worldFail).1 =
      (run_task_seq ((task_list worldFail).take 3) []).1 ++ d) := by
  have hmem : (liftPure (commit_notes worldFail.date worldFail.stageRes
      worldFail.commitRes)) ∈ task_list worldFail := by
    simp [task_list]
  obtain ⟨h1, h2⟩ := error_list_append_only worldFail
    (liftPure (commit_notes worldFail.date worldFail.stageRes
      worldFail.commitRes)) [.excEntry "x"] hmem 3
  exact ⟨hmem, h1, h2⟩

/-- C10: the `WSLENV` allowlist `backup_wsl` passes to the subprocess equals
the pre-existing value (the empty string when the variable was unset) with
`:NAME` appended for each of the four restic credential variable names in
their configuration order; in particular, when the variable was unset the
allowlist begins with a colon. -/
theorem wslenv_allowlist :
    (∀ v, backup_wsl_wslenv (some v) = v ++
      ":RESTIC_REPOSITORY:AWS_ACCESS_KEY_ID:AWS_SECRET_ACCESS_KEY:RESTIC_PASSWORD") ∧
    backup_wsl_wslenv none =
      ":RESTIC_REPOSITORY:AWS_ACCESS_KEY_ID:AWS_SECRET_ACCESS_KEY:RESTIC_PASSWORD" ∧
    (∃ r, backup_wsl_wslenv none = ":" ++ r) := by
  refine ⟨?_, by decide,
    ⟨"RESTIC_REPOSITORY:AWS_ACCESS_KEY_ID:AWS_SECRET_ACCESS_KEY:RESTIC_PASSWORD",
     by decide⟩⟩
  intro v
  have h1 : backup_wsl_wslenv (some v) =
      v ++ ":" ++ "RESTIC_REPOSITORY" ++ ":" ++ "AWS_ACCESS_KEY_ID" ++ ":" ++
        "AWS_SECRET_ACCESS_KEY" ++ ":" ++ "RESTIC_PASSWORD" := rfl
  have h2 : (":" : String) ++ ("RESTIC_REPOSITORY" ++ (":" ++
      ("AWS_ACCESS_KEY_ID" ++ (":" ++ ("AWS_SECRET_ACCESS_KEY" ++ (":" ++
        "RESTIC_PASSWORD")))))) =
      ":RESTIC_REPOSITORY:AWS_ACCESS_KEY_ID:AWS_SECRET_ACCESS_KEY:RESTIC_PASSWORD" := by
    decide
  rw [h1]
  simp only [String.append_assoc]
  rw [h2]

/-- C1: every run makes exactly one notification attempt, however many tasks
fail; if that first attempt itself raises, the top-level handler makes exactly
one more, and if that second attempt also raises nothing is delivered. -/
theorem notification_exactly_once (w : World) :
    (main_entry w).attempts.length = (if w.notifyFails 0 then 2 else 1) ∧
    (w.notifyFails 0 = false →
      (main_entry w).delivered = [decide_notification (run_tasks w).1]) ∧
    (w.notifyFails 0 = true →
      (main_entry w).attempts =
        [decide_notification (run_tasks w).1,
         ("Backup failed: 1 error", w.notifyExcStr)] ∧
      (w.notifyFails 1 = true → (main_entry w).delivered = []) ∧
      (w.notifyFails 1 = false →
        (main_entry w).delivered =
          [("Backup failed: 1 error", w.notifyExcStr)])) := by
  have hn := run_tasks_snd_eq_none w
  rcases hr : run_tasks w with ⟨errs, exc⟩
  rw [hr] at hn
  simp only at hn
  subst hn
  unfold main_entry
  rw [hr]
  by_cases h0 : w.notifyFails 0 <;> by_cases h1 : w.notifyFails 1 <;>
    simp [h0, h1]

/-- Witness for C1 at a run whose notifications always succeed and one whose
notifications always fail. -/
theorem notification_exactly_once_witness :
    (main_entry worldOk).attempts.length = 1 ∧
    (main_entry worldOk).delivered =
      [decide_notification (run_tasks worldOk).1] ∧
    (main_entry worldNotifyFail).attempts.length = 2 ∧
    (main_entry worldNotifyFail).delivered = [] := by
  obtain ⟨a1, d1, -⟩ := notification_exactly_once worldOk
  obtain ⟨a2, -, b2⟩ := notification_exactly_once worldNotifyFail
  refine ⟨by simpa using a1, d1 rfl, by simpa using a2, ?_⟩
  exact (b2 rfl).2.1 rfl

/-- C9: a run in which zero tasks fail (the final error list is empty)
notifies with the fixed success subject and the fixed success body. -/
theorem success_notification (w : World) (h : (run_tasks w).1 = []) :
    (main_entry w).attempts.head? =
      some ("Backup succeeded", SUCCESS_BODY) := by
  have hn := run_tasks_snd_eq_none w
  rcases hr : run_tasks w with ⟨errs, exc⟩
  rw [hr] at hn h
  simp only at hn h
  subst hn
  subst h
  unfold main_entry
  rw [hr]
  have hd : decide_notification [] = ("Backup succeeded", SUCCESS_BODY) := rfl
  by_cases hw : w.notifyFails 0 <;> by_cases hw1 : w.notifyFails 1 <;>
    simp [hw, hw1, hd]

/-- Witness for C9 at a concrete run in which every task succeeds. -/
theorem success_notification_witness :
    (run_tasks worldOk).1 = [] ∧
    (main_entry worldOk).attempts.head? =
      some ("Backup succeeded", SUCCESS_BODY) := by
  have h : (run_tasks worldOk).1 = [] := by decide
  exact ⟨h, success_notification worldOk h⟩

/-- C2: when N tasks fail (the final error list is non-empty, of length N),
the notification subject is the failure subject, which contains N and is
correctly pluralised (no `s` exactly when N = 1), and the body is the
concatenation of every captured failure's text, in order, stripped of leading
and trailing whitespace. -/
theorem failure_notification_content (w : World)
    (h : (run_tasks w).1 ≠ []) :
    (main_entry w).attempts.head? = some
      ("Backup failed! " ++ toString (run_tasks w).1.length ++ " error" ++
         (if (run_tasks w).1.length == 1 then "" else "s"),
       pyStrip (String.join ((run_tasks w).1.map entryStr))) ∧
    (∃ u v, ("Backup failed! " ++ toString (run_tasks w).1.length ++
        " error" ++ (if (run_tasks w).1.length == 1 then "" else "s")) =
      u ++ toString (run_tasks w).1.length ++ v) := by
  have hn := run_tasks_snd_eq_none w
  rcases hr : run_tasks w with ⟨errs, exc⟩
  rw [hr] at hn h
  simp only at hn h
  subst hn
  constructor
  · have hlen : (errs.length == 0) = false := by
      simp [List.length_eq_zero, h]
    have hd : decide_notification errs =
        ("Backup failed! " ++ toString errs.length ++ " error" ++
           (if errs.length == 1 then "" else "s"),
         pyStrip (String.join (errs.map entryStr))) := by
      simp [decide_notification, hlen]
    unfold main_entry
    rw [hr]
    by_cases hw : w.notifyFails 0 <;> by_cases hw1 : w.notifyFails 1 <;>
      simp [hw, hw1, hd]
  · exact ⟨"Backup failed! ",
      " error" ++ (if errs.length == 1 then "" else "s"),
      String.append_assoc _ _ _⟩

/-- Witness for C2 at a concrete run with exactly one failing task. -/
theorem failure_notification_content_witness :
    (run_tasks worldFail).1 ≠ [] ∧
    (main_entry worldFail).attempts.head? = some
      ("Backup failed! " ++ toString (run_tasks worldFail).1.length ++
         " error" ++
         (if (run_tasks worldFail).1.length == 1 then "" else "s"),
       pyStrip (String.join ((run_tasks worldFail).1.map entryStr))) := by
  have h : (run_tasks worldFail).1 ≠ [] := by decide
  exact ⟨h, (failure_notification_content worldFail h).1⟩
